import Mathlib

/-!
Verification of the cabourotte DNS healthcheck and one-off dispatch logic.

The Go source under verification is `healthcheck/dns.go` (configuration
validation, IP verification, probe execution) and the HTTP handler file
(one-off dispatch).  Pure Go functions become Lean functions; the platform
resolver (`net.LookupIP`) becomes an explicit parameter; Go errors become
`Option String` / `Except String` values carrying the error message.
-/

/-- Go `time.Duration` is an `int64` count of nanoseconds; we model it as `Int`.
`time.Second` is 1000000000 nanoseconds. -/
abbrev Duration := Int

/-- Modelled from the spec: the shared `Base` configuration struct is not under
`src/`; its fields are the ones the spec names (name, description, interval,
one-off flag, source tag) and that `dns.go` reads (`Base.Name`, `Base.OneOff`,
`Base.Interval`, `Base.Source`, `Base.Description`). -/
structure Base where
  Name : String
  Description : String
  Interval : Duration
  OneOff : Bool
  Source : String
deriving Repr, DecidableEq

/-- A Go `net.IP` (and the repository's `IP` alias) is a byte slice: either a
4-byte IPv4 address or a 16-byte IPv6 address. -/
abbrev GoIP := List Nat

/-- `DNSHealthcheckConfiguration` from `dns.go`: the embedded `Base` plus the
expected IPs and the domain. -/
structure DNSHealthcheckConfiguration where
  base : Base
  ExpectedIPs : List GoIP
  Domain : String
deriving Repr, DecidableEq

/-- `DNSHealthcheckConfiguration.Validate` from `dns.go`: the name must be
non-empty, the domain must be non-empty, and for a periodic check (OneOff
false) the interval must be at least `Duration(2*time.Second)`.  `none` models
the Go `nil` return; `some msg` models `errors.New(msg)`.  The Go method only
reads the configuration, so it is a pure function here. -/
def DNSHealthcheckConfiguration.Validate (config : DNSHealthcheckConfiguration) : Option String :=
  if config.base.Name = "" then
    some "The healthcheck name is missing"
  else if config.Domain = "" then
    some "The healthcheck domain is missing"
  else if config.base.OneOff = false ∧ config.base.Interval < 2 * 1000000000 then
    some "The healthcheck interval should be greater than 2 second"
  else
    none

/-- C2: for a periodic DNS configuration with non-empty name and domain,
`Validate` succeeds exactly when the interval is at least 2 seconds, so it
fails for every interval below 2 seconds and succeeds at the 2-second
boundary. -/
theorem dns_validate_periodic_interval_boundary
    (c : DNSHealthcheckConfiguration)
    (hn : c.base.Name ≠ "") (hd : c.Domain ≠ "") (ho : c.base.OneOff = false) :
    c.Validate = none ↔ 2 * 1000000000 ≤ c.base.Interval := by
  unfold DNSHealthcheckConfiguration.Validate
  rw [if_neg hn, if_neg hd]
  constructor
  · intro h
    by_contra hlt
    rw [if_pos ⟨ho, not_le.mp hlt⟩] at h
    exact Option.noConfusion h
  · intro h
    rw [if_neg]
    intro hc
    exact absurd hc.2 (not_lt.mpr h)

/-- Witness for C2: a concrete periodic configuration with interval exactly
2 seconds passes validation. -/
theorem dns_validate_periodic_interval_boundary_witness :
    DNSHealthcheckConfiguration.Validate
      ⟨⟨"check1", "", 2000000000, false, ""⟩, [], "mcorbin.fr"⟩ = none :=
  (dns_validate_periodic_interval_boundary
      ⟨⟨"check1", "", 2000000000, false, ""⟩, [], "mcorbin.fr"⟩
      (by decide) (by decide) rfl).mpr (by norm_num)

/-- C4: `Validate` returns an error exactly when the name is empty, the domain
is empty, or the check is periodic with interval below 2 seconds; the message
names the offending field (first failing rule in source order), and `Validate`
is a pure function of the configuration, mutating nothing. -/
theorem dns_validate_error_characterization (c : DNSHealthcheckConfiguration) :
    ((∃ m, c.Validate = some m) ↔
      (c.base.Name = "" ∨ c.Domain = "" ∨
        (c.base.OneOff = false ∧ c.base.Interval < 2 * 1000000000))) ∧
    (c.base.Name = "" → c.Validate = some "The healthcheck name is missing") ∧
    (c.base.Name ≠ "" → c.Domain = "" →
      c.Validate = some "The healthcheck domain is missing") ∧
    (c.base.Name ≠ "" → c.Domain ≠ "" → c.base.OneOff = false →
      c.base.Interval < 2 * 1000000000 →
      c.Validate = some "The healthcheck interval should be greater than 2 second") := by
  unfold DNSHealthcheckConfiguration.Validate
  refine ⟨?_, ?_, ?_, ?_⟩
  · constructor
    · rintro ⟨m, hm⟩
      by_cases h1 : c.base.Name = ""
      · exact Or.inl h1
      by_cases h2 : c.Domain = ""
      · exact Or.inr (Or.inl h2)
      rw [if_neg h1, if_neg h2] at hm
      by_cases h3 : c.base.OneOff = false ∧ c.base.Interval < 2 * 1000000000
      · exact Or.inr (Or.inr h3)
      · rw [if_neg h3] at hm
        exact Option.noConfusion hm
    · intro h
      by_cases h1 : c.base.Name = ""
      · exact ⟨_, if_pos h1⟩
      by_cases h2 : c.Domain = ""
      · rw [if_neg h1]
        exact ⟨_, if_pos h2⟩
      rcases h with h | h | h
      · exact absurd h h1
      · exact absurd h h2
      · rw [if_neg h1, if_neg h2]
        exact ⟨_, if_pos h⟩
  · intro h1
    exact if_pos h1
  · intro h1 h2
    rw [if_neg h1]
    exact if_pos h2
  · intro h1 h2 h3 h4
    rw [if_neg h1, if_neg h2]
    exact if_pos ⟨h3, h4⟩

/-- Witness for C4: a configuration with an empty name is rejected with the
name-missing message. -/
theorem dns_validate_error_characterization_witness :
    DNSHealthcheckConfiguration.Validate ⟨⟨"", "", 0, false, ""⟩, [], "mcorbin.fr"⟩ =
      some "The healthcheck name is missing" :=
  (dns_validate_error_characterization
      ⟨⟨"", "", 0, false, ""⟩, [], "mcorbin.fr"⟩).2.1 rfl

/-- C5: for a one-off DNS configuration with non-empty name and domain,
`Validate` succeeds whatever the interval is; the interval is never examined
on the one-off path. -/
theorem dns_validate_one_off_ignores_interval
    (c : DNSHealthcheckConfiguration)
    (hn : c.base.Name ≠ "") (hd : c.Domain ≠ "") (ho : c.base.OneOff = true) :
    c.Validate = none := by
  unfold DNSHealthcheckConfiguration.Validate
  rw [if_neg hn, if_neg hd, if_neg]
  rintro ⟨hfalse, -⟩
  rw [ho] at hfalse
  exact Bool.noConfusion hfalse

/-- Witness for C5: a one-off configuration with a zero (absent) interval, and
another with a negative interval, both pass validation. -/
theorem dns_validate_one_off_ignores_interval_witness :
    DNSHealthcheckConfiguration.Validate ⟨⟨"once", "", 0, true, ""⟩, [], "mcorbin.fr"⟩ = none ∧
    DNSHealthcheckConfiguration.Validate ⟨⟨"once", "", -5, true, ""⟩, [], "mcorbin.fr"⟩ = none :=
  ⟨dns_validate_one_off_ignores_interval ⟨⟨"once", "", 0, true, ""⟩, [], "mcorbin.fr"⟩
      (by decide) (by decide) rfl,
   dns_validate_one_off_ignores_interval ⟨⟨"once", "", -5, true, ""⟩, [], "mcorbin.fr"⟩
      (by decide) (by decide) rfl⟩

/-- The 12-byte prefix `v4InV6Prefix` of the Go `net` package, marking an
IPv4-mapped IPv6 address. -/
def v4InV6Prefix : List Nat := [0, 0, 0, 0, 0, 0, 0, 0, 0, 0, 255, 255]

/-- Go `net.IP.Equal` (platform collaborator used by `verifyIPs`): semantic
address equality.  Same-length slices compare byte for byte; a 4-byte address
equals a 16-byte address exactly when the latter is its IPv4-mapped form. -/
def ipEqual (ip x : GoIP) : Bool :=
  if ip.length = x.length then ip == x
  else if ip.length = 4 ∧ x.length = 16 then
    (x.take 12 == v4InV6Prefix) && (ip == x.drop 12)
  else if ip.length = 16 ∧ x.length = 4 then
    (ip.take 12 == v4InV6Prefix) && (x == ip.drop 12)
  else false

/-- Go `net.IP.To4`: returns the 4-byte form of an IPv4 address (identity on
4-byte slices, the low 4 bytes of an IPv4-mapped 16-byte slice), `none`
otherwise. -/
def ipTo4 (ip : GoIP) : Option GoIP :=
  if ip.length = 4 then some ip
  else if ip.length = 16 ∧ (ip.take 10).all (fun b => b = 0) ∧
      ip.getD 10 0 = 255 ∧ ip.getD 11 0 = 255 then
    some (ip.drop 12)
  else none

/-- Go `net.hexString`: every byte as two lowercase hex digits. -/
def hexString (b : List Nat) : String :=
  b.foldl (fun s tn => s ++ String.mk [Nat.digitChar (tn / 16 % 16), Nat.digitChar (tn % 16)]) ""

/-- Go `net.appendHex`: lowercase hex digits of a group, no leading zeros,
a single `0` for zero. -/
def appendHexStr (i : Nat) : String :=
  if i = 0 then "0" else String.mk (Nat.toDigits 16 i)

/-- One 16-bit group of an IPv6 address: `uint32(p[i])<<8 | uint32(p[i+1])`. -/
def ip6Group (p : List Nat) (i : Nat) : Nat :=
  p.getD i 0 * 256 + p.getD (i + 1) 0

/-- Inner loop of Go `net.IP.String`'s zero-run search: advance `j` by 2 while
the 16-bit group at `j` is zero.  The loop runs at most 8 times; `fuel = 16`
makes the recursion structural without changing the result. -/
def zeroRunEnd (p : List Nat) : Nat → Nat → Nat
  | 0, j => j
  | fuel + 1, j =>
    if j < 16 ∧ p.getD j 0 = 0 ∧ p.getD (j + 1) 0 = 0 then zeroRunEnd p fuel (j + 2)
    else j

/-- Outer loop of Go `net.IP.String`'s zero-run search: find the first longest
run `[e0, e1)` of zero 16-bit groups (indices in bytes, `-1` when none). -/
def findRunLoop (p : List Nat) : Nat → Nat → Int → Int → Int × Int
  | 0, _, e0, e1 => (e0, e1)
  | fuel + 1, i, e0, e1 =>
    if i < 16 then
      let j := zeroRunEnd p 16 i
      if i < j ∧ (j : Int) - (i : Int) > e1 - e0 then
        findRunLoop p fuel (j + 2) (Int.ofNat i) (Int.ofNat j)
      else
        findRunLoop p fuel (i + 2) e0 e1
    else (e0, e1)

/-- Go `net.IP.String` zero-run selection: runs of a single group are not
compressed (`::` must not shorten just one 16-bit 0 field). -/
def findZeroRun (p : List Nat) : Int × Int :=
  let r := findRunLoop p 16 0 (-1) (-1)
  if r.2 - r.1 ≤ 2 then (-1, -1) else r

/-- Output loop of Go `net.IP.String` for a full 16-byte IPv6 address:
hex groups separated by `:`, the chosen zero run printed as `::`. -/
def ipv6Loop (p : List Nat) (e0 e1 : Int) : Nat → Nat → String → String
  | 0, _, b => b
  | fuel + 1, i, b =>
    if i < 16 then
      if (i : Int) = e0 then
        let b2 := b ++ "::"
        if (16 : Int) ≤ e1 then b2
        else ipv6Loop p e0 e1 fuel (e1.toNat + 2) (b2 ++ appendHexStr (ip6Group p e1.toNat))
      else
        let b2 := if 0 < i then b ++ ":" else b
        ipv6Loop p e0 e1 fuel (i + 2) (b2 ++ appendHexStr (ip6Group p i))
    else b

/-- Go `net.IP.String` (platform collaborator used by `verifyIPs` for the
error message): `<nil>` for an empty slice, dotted decimal for an IPv4 or
IPv4-mapped address, `?` plus hex for an invalid length, and RFC 5952-style
compressed hex groups for a full IPv6 address. -/
def ipString (ip : GoIP) : String :=
  if ip.length = 0 then "<nil>"
  else
    match ipTo4 ip with
    | some p4 =>
        toString (p4.getD 0 0) ++ "." ++ toString (p4.getD 1 0) ++ "." ++
          toString (p4.getD 2 0) ++ "." ++ toString (p4.getD 3 0)
    | none =>
        if ip.length ≠ 16 then "?" ++ hexString ip
        else
          let r := findZeroRun ip
          ipv6Loop ip r.1 r.2 16 0 ""

/-- Inner loop of `verifyIPs` in `dns.go`: scan the resolver's answers for one
equal (in the sense of `net.IP.Equal`) to the expected IP, with early break. -/
def ipFoundIn (netIP : GoIP) (lookupIPs : List GoIP) : Bool :=
  match lookupIPs with
  | [] => false
  | respIP :: rest => if ipEqual netIP respIP then true else ipFoundIn netIP rest

/-- Outer loop of `verifyIPs` in `dns.go`: accumulate, in configured order,
the string form of every expected IP with no equal resolved IP. -/
def notFoundList (expectedIPs lookupIPs : List GoIP) : List String :=
  expectedIPs.foldl
    (fun notFound netIP =>
      if ipFoundIn netIP lookupIPs then notFound else notFound ++ [ipString netIP])
    []

/-- Message-building loop of `verifyIPs` in `dns.go`:
`l = l + "," + notFound` over the accumulated names. -/
def commaJoin (xs : List String) : String :=
  xs.foldl (fun l s => l ++ "," ++ s) ""

/-- `verifyIPs` from `dns.go`: succeed exactly when every expected IP has an
equal resolved IP; otherwise fail with the message listing the missing ones. -/
def verifyIPs (expectedIPs : List GoIP) (lookupIPs : List GoIP) : Except String Unit :=
  let notFound := notFoundList expectedIPs lookupIPs
  if notFound.length ≠ 0 then
    Except.error ("Expected IP address not found. IPs found are " ++ commaJoin notFound)
  else
    Except.ok ()

/-- Specification-side view of the not-found set: the sublist of expected IPs,
in configured order, with no `net.IP.Equal` match among the resolved IPs. -/
def notFoundSpec (expectedIPs lookupIPs : List GoIP) : List GoIP :=
  expectedIPs.filter (fun e => !(lookupIPs.any (fun r => ipEqual e r)))

theorem ipFoundIn_eq_any (e : GoIP) (l : List GoIP) :
    ipFoundIn e l = l.any (fun r => ipEqual e r) := by
  induction l with
  | nil => rfl
  | cons r rest ih => cases hq : ipEqual e r <;> simp [ipFoundIn, hq, ih]

theorem notFoundList_go (l : List GoIP) (exp : List GoIP) : ∀ acc : List String,
    exp.foldl
      (fun notFound netIP =>
        if ipFoundIn netIP l then notFound else notFound ++ [ipString netIP])
      acc = acc ++ (notFoundSpec exp l).map ipString := by
  induction exp with
  | nil => intro acc; simp [notFoundSpec]
  | cons e rest ih =>
    intro acc
    rw [List.foldl_cons]
    by_cases hq : ipFoundIn e l = true
    · rw [if_pos hq, ih acc]
      have hany : (l.any fun r => ipEqual e r) = true :=
        (ipFoundIn_eq_any e l).symm.trans hq
      have hns : notFoundSpec (e :: rest) l = notFoundSpec rest l := by
        simp [notFoundSpec, List.filter_cons, hany]
      rw [hns]
    · rw [if_neg hq, ih (acc ++ [ipString e])]
      rw [Bool.not_eq_true] at hq
      have hany : (l.any fun r => ipEqual e r) = false :=
        (ipFoundIn_eq_any e l).symm.trans hq
      have hns : notFoundSpec (e :: rest) l = e :: notFoundSpec rest l := by
        simp [notFoundSpec, List.filter_cons, hany]
      rw [hns, List.map_cons, List.append_assoc]
      rfl

theorem notFoundList_eq (exp l : List GoIP) :
    notFoundList exp l = (notFoundSpec exp l).map ipString := by
  simpa using notFoundList_go l exp []

theorem verifyIPs_eq_ok_iff (exp l : List GoIP) :
    verifyIPs exp l = Except.ok () ↔ ∀ e ∈ exp, ∃ r ∈ l, ipEqual e r = true := by
  simp only [verifyIPs]
  rw [notFoundList_eq]
  constructor
  · intro hok e he
    by_contra hno
    have hmem : e ∈ notFoundSpec exp l := by
      rw [notFoundSpec, List.mem_filter]
      refine ⟨he, ?_⟩
      cases hany : l.any (fun r => ipEqual e r) with
      | false => rfl
      | true =>
        exfalso
        rw [List.any_eq_true] at hany
        exact hno hany
    have hlen : ((notFoundSpec exp l).map ipString).length ≠ 0 := by
      simp only [List.length_map]
      intro h0
      rw [List.length_eq_zero] at h0
      rw [h0] at hmem
      exact List.not_mem_nil e hmem
    rw [if_pos hlen] at hok
    exact Except.noConfusion hok
  · intro hall
    have hnil : notFoundSpec exp l = [] := by
      rw [notFoundSpec, List.filter_eq_nil_iff]
      intro e he
      intro hcontra
      rw [Bool.not_eq_true'] at hcontra
      obtain ⟨r, hr, hx⟩ := hall e he
      have hx2 := List.any_eq_true.mpr ⟨r, hr, hx⟩
      rw [hcontra] at hx2
      exact Bool.noConfusion hx2
    rw [hnil]
    simp

/-- `DNSHealthcheck` from `dns.go`.  The `Logger` (injected logging capability)
and `Tick` (runtime timer handle) fields are runtime handles with no bearing on
the pure check logic and are not modelled. -/
structure DNSHealthcheck where
  Config : DNSHealthcheckConfiguration
  URL : String
deriving Repr, DecidableEq

/-- `DNSHealthcheck.Initialize` from `dns.go`: the body is `return nil`, so it
always succeeds and the probe state is returned unchanged. -/
def DNSHealthcheck.Initialize (h : DNSHealthcheck) : Option String × DNSHealthcheck :=
  (none, h)

/-- `DNSHealthcheck.SetSource` from `dns.go`: `h.Config.Base.Source = source`. -/
def DNSHealthcheck.SetSource (h : DNSHealthcheck) (source : String) : DNSHealthcheck :=
  { h with Config := { h.Config with base := { h.Config.base with Source := source } } }

/-- `DNSHealthcheck.Execute` from `dns.go`: look up the configured domain (the
platform resolver `net.LookupIP` is the `lookupIP` parameter), wrap a lookup
failure with `errors.Wrapf` (whose message is `msg: cause`), otherwise return
the verdict of `verifyIPs`. -/
def DNSHealthcheck.Execute (h : DNSHealthcheck)
    (lookupIP : String → Except String (List GoIP)) : Except String Unit :=
  match lookupIP h.Config.Domain with
  | Except.error err => Except.error ("Fail to lookup IP for domain" ++ ": " ++ err)
  | Except.ok ips =>
    match verifyIPs h.Config.ExpectedIPs ips with
    | Except.error err => Except.error err
    | Except.ok _ => Except.ok ()

/-- C1: with non-empty expected IPs and a successful resolution, `Execute`
succeeds exactly when every expected IP has a `net.IP.Equal`-equal resolved IP:
order of both lists is irrelevant, extra resolved IPs are irrelevant, and the
comparison is semantic address equality (`ipEqual`), under which an
IPv4-mapped IPv6 form equals its canonical IPv4 form. -/
theorem dns_execute_succeeds_iff_expected_subset
    (h : DNSHealthcheck) (lookupIP : String → Except String (List GoIP))
    (ips : List GoIP)
    (hres : lookupIP h.Config.Domain = Except.ok ips)
    (hne : h.Config.ExpectedIPs ≠ []) :
    h.Execute lookupIP = Except.ok () ↔
      ∀ e ∈ h.Config.ExpectedIPs, ∃ r ∈ ips, ipEqual e r = true := by
  unfold DNSHealthcheck.Execute
  rw [hres]
  dsimp only
  rw [← verifyIPs_eq_ok_iff]
  cases hv : verifyIPs h.Config.ExpectedIPs ips with
  | error e => simp
  | ok u => cases u; simp

/-- Witness for C1: the spec example with expected IPs 10.0.0.1 and 10.0.0.2
and the resolver answering 10.0.0.2, the IPv4-mapped IPv6 form of 10.0.0.1,
and 10.0.0.3, in that order: `Execute` succeeds. -/
theorem dns_execute_succeeds_iff_expected_subset_witness :
    DNSHealthcheck.Execute
      ⟨⟨⟨"dns-check", "", 0, true, ""⟩, [[10, 0, 0, 1], [10, 0, 0, 2]], "mcorbin.fr"⟩, ""⟩
      (fun _ => Except.ok
        [[10, 0, 0, 2],
         [0, 0, 0, 0, 0, 0, 0, 0, 0, 0, 255, 255, 10, 0, 0, 1],
         [10, 0, 0, 3]]) = Except.ok () :=
  (dns_execute_succeeds_iff_expected_subset
      ⟨⟨⟨"dns-check", "", 0, true, ""⟩, [[10, 0, 0, 1], [10, 0, 0, 2]], "mcorbin.fr"⟩, ""⟩
      (fun _ => Except.ok
        [[10, 0, 0, 2],
         [0, 0, 0, 0, 0, 0, 0, 0, 0, 0, 255, 255, 10, 0, 0, 1],
         [10, 0, 0, 3]])
      [[10, 0, 0, 2],
       [0, 0, 0, 0, 0, 0, 0, 0, 0, 0, 255, 255, 10, 0, 0, 1],
       [10, 0, 0, 3]]
      rfl (by decide)).mpr (by decide)

/-- C3: when some expected IPs are missing, `verifyIPs` fails and the message
joins (with a comma before each entry) exactly the string forms of the expected
IPs with no equal resolved IP, in the order they were configured; an expected
IP belongs to that list precisely when it has no `net.IP.Equal` match among the
resolved IPs, so no found IP is listed. -/
theorem verify_ips_error_lists_not_found
    (expectedIPs lookupIPs : List GoIP)
    (hnf : notFoundSpec expectedIPs lookupIPs ≠ []) :
    verifyIPs expectedIPs lookupIPs =
      Except.error ("Expected IP address not found. IPs found are " ++
        commaJoin ((notFoundSpec expectedIPs lookupIPs).map ipString)) ∧
    (∀ e ∈ expectedIPs,
      (e ∈ notFoundSpec expectedIPs lookupIPs ↔ ¬ ∃ r ∈ lookupIPs, ipEqual e r = true)) := by
  constructor
  · simp only [verifyIPs]
    rw [notFoundList_eq]
    have hlen : ((notFoundSpec expectedIPs lookupIPs).map ipString).length ≠ 0 := by
      simp only [List.length_map]
      intro h0
      exact hnf (List.length_eq_zero.mp h0)
    rw [if_pos hlen]
  · intro e he
    rw [notFoundSpec, List.mem_filter]
    constructor
    · rintro ⟨-, hnot⟩ hex
      rw [Bool.not_eq_true'] at hnot
      obtain ⟨r, hr, hx⟩ := hex
      have hx2 := List.any_eq_true.mpr ⟨r, hr, hx⟩
      rw [hnot] at hx2
      exact Bool.noConfusion hx2
    · intro hnex
      refine ⟨he, ?_⟩
      rw [Bool.not_eq_true']
      cases hany : lookupIPs.any (fun r => ipEqual e r) with
      | false => rfl
      | true => exact absurd (List.any_eq_true.mp hany) hnex

/-- Witness for C3: the spec example with expected IPs 10.0.0.1 and 10.0.0.5
and the resolver answering only 10.0.0.1: the message names 10.0.0.5 and not
10.0.0.1. -/
theorem verify_ips_error_lists_not_found_witness :
    verifyIPs [[10, 0, 0, 1], [10, 0, 0, 5]] [[10, 0, 0, 1]] =
      Except.error "Expected IP address not found. IPs found are ,10.0.0.5" :=
  ((verify_ips_error_lists_not_found [[10, 0, 0, 1], [10, 0, 0, 5]] [[10, 0, 0, 1]]
      (by decide)).1).trans (congrArg Except.error (by decide))

/-- C6: with an empty expected-IP list, `Execute` succeeds whenever the
resolution succeeds, whatever IPs come back. -/
theorem dns_execute_empty_expected_ok
    (h : DNSHealthcheck) (lookupIP : String → Except String (List GoIP))
    (ips : List GoIP)
    (hres : lookupIP h.Config.Domain = Except.ok ips)
    (he : h.Config.ExpectedIPs = []) :
    h.Execute lookupIP = Except.ok () := by
  unfold DNSHealthcheck.Execute
  rw [hres, he]
  rfl

/-- Witness for C6: a probe with no expected IPs succeeds on a resolver
answering two arbitrary addresses. -/
theorem dns_execute_empty_expected_ok_witness :
    DNSHealthcheck.Execute ⟨⟨⟨"dns-check", "", 0, true, ""⟩, [], "mcorbin.fr"⟩, ""⟩
      (fun _ => Except.ok [[192, 168, 1, 1], [10, 0, 0, 3]]) = Except.ok () :=
  dns_execute_empty_expected_ok
    ⟨⟨⟨"dns-check", "", 0, true, ""⟩, [], "mcorbin.fr"⟩, ""⟩
    (fun _ => Except.ok [[192, 168, 1, 1], [10, 0, 0, 3]])
    [[192, 168, 1, 1], [10, 0, 0, 3]] rfl rfl

/-- C7: when the lookup itself fails, `Execute` returns the lookup error
wrapped with the `Fail to lookup IP for domain` context, and the expected-IP
verification is never reached: the outcome is the same whatever the
expected-IP list holds. -/
theorem dns_execute_lookup_failure_wrapped
    (h : DNSHealthcheck) (lookupIP : String → Except String (List GoIP))
    (err : String)
    (hres : lookupIP h.Config.Domain = Except.error err) :
    h.Execute lookupIP = Except.error ("Fail to lookup IP for domain" ++ ": " ++ err) ∧
    ∀ other : List GoIP,
      DNSHealthcheck.Execute ⟨⟨h.Config.base, other, h.Config.Domain⟩, h.URL⟩ lookupIP =
        Except.error ("Fail to lookup IP for domain" ++ ": " ++ err) := by
  constructor
  · unfold DNSHealthcheck.Execute
    rw [hres]
  · intro other
    unfold DNSHealthcheck.Execute
    rw [show (⟨⟨h.Config.base, other, h.Config.Domain⟩, h.URL⟩ : DNSHealthcheck).Config.Domain
        = h.Config.Domain from rfl, hres]

/-- Witness for C7: a resolver failing with `no such host` makes `Execute`
fail with the wrapped message, independently of the expected IPs. -/
theorem dns_execute_lookup_failure_wrapped_witness :
    DNSHealthcheck.Execute
      ⟨⟨⟨"dns-check", "", 0, true, ""⟩, [[10, 0, 0, 1]], "unknown.mcorbin.fr"⟩, ""⟩
      (fun _ => Except.error "no such host") =
      Except.error "Fail to lookup IP for domain: no such host" :=
  ((dns_execute_lookup_failure_wrapped
      ⟨⟨⟨"dns-check", "", 0, true, ""⟩, [[10, 0, 0, 1]], "unknown.mcorbin.fr"⟩, ""⟩
      (fun _ => Except.error "no such host") "no such host" rfl).1).trans
    (congrArg Except.error (by decide))

/-- C10: `SetSource` writes exactly the `Source` field of the base
configuration and leaves name, description, interval, one-off flag, domain and
expected IPs unchanged. -/
theorem dns_set_source_frame (h : DNSHealthcheck) (source : String) :
    (h.SetSource source).Config.base.Source = source ∧
    (h.SetSource source).Config.base.Name = h.Config.base.Name ∧
    (h.SetSource source).Config.base.Description = h.Config.base.Description ∧
    (h.SetSource source).Config.base.Interval = h.Config.base.Interval ∧
    (h.SetSource source).Config.base.OneOff = h.Config.base.OneOff ∧
    (h.SetSource source).Config.Domain = h.Config.Domain ∧
    (h.SetSource source).Config.ExpectedIPs = h.Config.ExpectedIPs :=
  ⟨rfl, rfl, rfl, rfl, rfl, rfl, rfl⟩

/-- `BasicResponse` from the HTTP handler file: the JSON message body. -/
structure BasicResponse where
  Message : String
deriving Repr, DecidableEq

/-- An `ec.JSON(status, body)` reply of the handler: HTTP status plus body.
`http.StatusInternalServerError` is 500, `http.StatusCreated` is 201. -/
structure HTTPResult where
  status : Nat
  body : BasicResponse
deriving Repr, DecidableEq

/-- The observable probe calls a handler can make: `Initialize()`,
`Execute()`, and `Registry.AddCheck` (the only call that touches the
Registry map). -/
inductive HandlerAction where
  | initAction
  | execAction
  | addAction
deriving Repr, DecidableEq

/-- The `healthcheck.Healthcheck` interface value the handler receives, seen
through the calls the handler makes on it: `Name()`, `OneOff()`, and the
outcomes of `Initialize()` and `Execute()` (`none` models a `nil` error). -/
structure Healthcheck where
  name : String
  oneOff : Bool
  initErr : Option String
  execErr : Option String
deriving Repr, DecidableEq

/-- `Component.addCheck` from the handler file: hand the probe to
`Registry.AddCheck` (outcome `addErr`) and report 500 on failure, 201 on
success. -/
def addCheckHandler (hc : Healthcheck) (addErr : Option String) :
    HTTPResult × List HandlerAction :=
  match hc, addErr with
  | _, some e =>
    (⟨500, ⟨"Fail to start the healthcheck: " ++ e⟩⟩, [HandlerAction.addAction])
  | _, none =>
    (⟨201, ⟨"Healthcheck successfully added"⟩⟩, [HandlerAction.addAction])

/-- `Component.oneOff` from the handler file: call `Initialize()`, reporting
500 with the init-failure message on error; then call `Execute()`, reporting
500 with the execution-failure message on error; otherwise report 201.  The
second component records, in order, the probe calls made. -/
def oneOffHandler (hc : Healthcheck) : HTTPResult × List HandlerAction :=
  match hc.initErr with
  | some e =>
    (⟨500, ⟨"Fail to initialize one off healthcheck " ++ hc.name ++ ": " ++ e⟩⟩,
      [HandlerAction.initAction])
  | none =>
    match hc.execErr with
    | some e =>
      (⟨500, ⟨"Execution of one off healthcheck " ++ hc.name ++ " failed: " ++ e⟩⟩,
        [HandlerAction.initAction, HandlerAction.execAction])
    | none =>
      (⟨201, ⟨"One-off healthcheck " ++ hc.name ++ " successfully executed"⟩⟩,
        [HandlerAction.initAction, HandlerAction.execAction])

/-- `Component.handleCheck` from the handler file: one-off probes go to
`Component.oneOff`, periodic ones to `Component.addCheck`. -/
def handleCheck (hc : Healthcheck) (addErr : Option String) :
    HTTPResult × List HandlerAction :=
  if hc.oneOff then oneOffHandler hc else addCheckHandler hc addErr

/-- C8: for a one-off probe the handler never calls `AddCheck`; it calls
`Initialize` and, only if that succeeded, `Execute`; the init-failure and
execution-failure replies are 500s whose messages carry distinct fixed
prefixes, and a 201 is reported only when `Execute` was called and
succeeded. -/
theorem handle_check_one_off_flow (hc : Healthcheck) (addErr : Option String)
    (ho : hc.oneOff = true) :
    (HandlerAction.addAction ∉ (handleCheck hc addErr).2) ∧
    (∀ e, hc.initErr = some e →
      (handleCheck hc addErr).2 = [HandlerAction.initAction] ∧
      (handleCheck hc addErr).1 =
        ⟨500, ⟨"Fail to initialize one off healthcheck " ++ hc.name ++ ": " ++ e⟩⟩) ∧
    (∀ e, hc.initErr = none → hc.execErr = some e →
      (handleCheck hc addErr).2 = [HandlerAction.initAction, HandlerAction.execAction] ∧
      (handleCheck hc addErr).1 =
        ⟨500, ⟨"Execution of one off healthcheck " ++ hc.name ++ " failed: " ++ e⟩⟩) ∧
    (hc.initErr = none → hc.execErr = none →
      (handleCheck hc addErr).2 = [HandlerAction.initAction, HandlerAction.execAction] ∧
      (handleCheck hc addErr).1 =
        ⟨201, ⟨"One-off healthcheck " ++ hc.name ++ " successfully executed"⟩⟩) ∧
    ((handleCheck hc addErr).1.status = 201 →
      hc.initErr = none ∧ hc.execErr = none ∧
      HandlerAction.execAction ∈ (handleCheck hc addErr).2) ∧
    ("Fail to initialize one off healthcheck " ≠ "Execution of one off healthcheck ") := by
  refine ⟨?_, ?_, ?_, ?_, ?_, by decide⟩
  · cases hi : hc.initErr with
    | some e => simp [handleCheck, ho, oneOffHandler, hi]
    | none =>
      cases hx : hc.execErr with
      | some e => simp [handleCheck, ho, oneOffHandler, hi, hx]
      | none => simp [handleCheck, ho, oneOffHandler, hi, hx]
  · intro e he
    exact ⟨by simp [handleCheck, ho, oneOffHandler, he], by simp [handleCheck, ho, oneOffHandler, he]⟩
  · intro e hi hx
    exact ⟨by simp [handleCheck, ho, oneOffHandler, hi, hx],
      by simp [handleCheck, ho, oneOffHandler, hi, hx]⟩
  · intro hi hx
    exact ⟨by simp [handleCheck, ho, oneOffHandler, hi, hx],
      by simp [handleCheck, ho, oneOffHandler, hi, hx]⟩
  · intro h201
    cases hi : hc.initErr with
    | some e =>
      exfalso
      simp [handleCheck, ho, oneOffHandler, hi] at h201
    | none =>
      cases hx : hc.execErr with
      | some e =>
        exfalso
        simp [handleCheck, ho, oneOffHandler, hi, hx] at h201
      | none =>
        exact ⟨rfl, rfl, by simp [handleCheck, ho, oneOffHandler, hi, hx]⟩

/-- Witness for C8: a one-off probe whose execution fails with `timeout` gets
the execution-failure reply and the Registry is never touched. -/
theorem handle_check_one_off_flow_witness :
    (handleCheck ⟨"ping", true, none, some "timeout"⟩ none).1 =
      ⟨500, ⟨"Execution of one off healthcheck ping failed: timeout"⟩⟩ ∧
    HandlerAction.addAction ∉ (handleCheck ⟨"ping", true, none, some "timeout"⟩ none).2 :=
  ⟨((handle_check_one_off_flow ⟨"ping", true, none, some "timeout"⟩ none rfl).2.2.1
      "timeout" rfl rfl).2,
   (handle_check_one_off_flow ⟨"ping", true, none, some "timeout"⟩ none rfl).1⟩

/-- View of a DNS probe as the `Healthcheck` interface value the handler
receives.  The `Name()` and `OneOff()` accessors are not under `src/`; they
are modelled from the spec as the base configuration's name and one-off flag.
The init and execute outcomes come from `DNSHealthcheck.Initialize` and
`DNSHealthcheck.Execute` under the given resolver. -/
def DNSHealthcheck.asHealthcheck (h : DNSHealthcheck)
    (lookupIP : String → Except String (List GoIP)) : Healthcheck :=
  { name := h.Config.base.Name
    oneOff := h.Config.base.OneOff
    initErr := (h.Initialize).1
    execErr :=
      match h.Execute lookupIP with
      | Except.error e => some e
      | Except.ok _ => none }

/-- C9: `DNSHealthcheck.Initialize` always succeeds and leaves the probe
unchanged, so when a one-off DNS probe is dispatched the handler always gets
past initialization to `Execute` and the init-failure branch (whose action
trace would be just the `Initialize` call) is never taken. -/
theorem dns_initialize_never_fails
    (h : DNSHealthcheck) (lookupIP : String → Except String (List GoIP))
    (addErr : Option String) (ho : h.Config.base.OneOff = true) :
    h.Initialize = (none, h) ∧
    (handleCheck (h.asHealthcheck lookupIP) addErr).2 =
      [HandlerAction.initAction, HandlerAction.execAction] := by
  refine ⟨rfl, ?_⟩
  have hone : (h.asHealthcheck lookupIP).oneOff = true := ho
  have hinit : (h.asHealthcheck lookupIP).initErr = none := rfl
  cases hx : (h.asHealthcheck lookupIP).execErr with
  | some e => simp [handleCheck, hone, oneOffHandler, hinit, hx]
  | none => simp [handleCheck, hone, oneOffHandler, hinit, hx]

/-- Witness for C9: a concrete one-off DNS probe whose lookup even fails still
reaches `Execute`; initialization never fails. -/
theorem dns_initialize_never_fails_witness :
    DNSHealthcheck.Initialize ⟨⟨⟨"dns-check", "", 0, true, ""⟩, [], "mcorbin.fr"⟩, ""⟩ =
      (none, ⟨⟨⟨"dns-check", "", 0, true, ""⟩, [], "mcorbin.fr"⟩, ""⟩) ∧
    (handleCheck
      (DNSHealthcheck.asHealthcheck ⟨⟨⟨"dns-check", "", 0, true, ""⟩, [], "mcorbin.fr"⟩, ""⟩
        (fun _ => Except.error "no such host")) none).2 =
      [HandlerAction.initAction, HandlerAction.execAction] :=
  dns_initialize_never_fails ⟨⟨⟨"dns-check", "", 0, true, ""⟩, [], "mcorbin.fr"⟩, ""⟩
    (fun _ => Except.error "no such host") none rfl
